import Mathlib

/-!
Shallow embedding of the JioSaavn synchronous client
(`src/JioSaavn/_syncFetch.py`) and statements of its behavioural
contract.

The module `_syncFetch.py` is the only source file available.  The helper
modules it imports (`__validation`, `__helper`, `__baseApiUrl`,
`__syncparse`, `__exceptions`, `__constants`, `__syncrequests`) are not
in the repository snapshot, so they are modelled from the specification;
each such definition carries a doc comment starting with
`Modelled from the spec:`.  The control flow of the six public
functions, the order of their validations, the exact exception raised at
each point and the raw/json branching are all translated directly from
`_syncFetch.py`.
-/

namespace JioSaavn

/-- JSON values as decoded by the backend fetch layer.  Python `None`
becomes `null`, dictionaries become `obj` with an association list of
fields. -/
inductive JSON where
  | null : JSON
  | str : String → JSON
  | num : Int → JSON
  | bool : Bool → JSON
  | arr : List JSON → JSON
  | obj : List (String × JSON) → JSON

/-- The error kinds the client can raise.  `validationError` and
`invalidURL` are the classes imported from `__exceptions` (raised
explicitly with `raise` in `_syncFetch.py`); `assertionError` is
Python's built-in `AssertionError`, raised by the
`assert response in Response` statements; `keyError` is Python's
built-in raised by `result[id]` when the key is absent; `typeError`
models indexing a non-dictionary; `transportError` and
`extractionError` are the fetch-layer and id-extraction failures of
spec sections 4.2 and 4.4. -/
inductive Err where
  | validationError : String → Err
  | invalidURL : String → Err
  | assertionError : String → Err
  | keyError : String → Err
  | typeError : Err
  | transportError : Err
  | extractionError : Err
deriving DecidableEq

/-- A network request issued by a call: `apiGet` is a JSON API fetch
(`__syncrequests.getjSON`), `pageGet` is an HTML page fetch
(`__syncrequests.getText`, used only for URL-to-id scraping). -/
inductive Req where
  | apiGet : String → Req
  | pageGet : String → List (String × String) → Req
deriving DecidableEq

/-- The backend, modelled as two oracles: `getjSON` answers API fetches
with a decoded JSON value (or a transport failure), `getText` answers
page fetches with page text (or a transport failure).  Spec section 4.2. -/
structure Backend where
  getjSON : String → Except Err JSON
  getText : String → List (String × String) → Except Err String

/-- Python truthiness of an `Optional[str]` argument: `None` and the
empty string are falsy. -/
def truthyOpt : Option String → Bool
  | none => false
  | some s => !(s == "")

/-- The string carried by an `Optional[str]` argument (`""` for `None`;
only read on branches where the option is truthy). -/
def optStr : Option String → String
  | none => ""
  | some s => s

/-- Modelled from the spec: `__constants.Response`, the set of
recognized response modes ("json", "raw"), spec section 4.6 step 1. -/
def Response : List String := ["json", "raw"]

/-- Field access `d.get(k)` on a decoded JSON dictionary: `none` when
the key is absent or the value is not a dictionary. -/
def JSON.getField (j : JSON) (k : String) : Option JSON :=
  match j with
  | .obj fs => List.lookup k fs
  | _ => none

/-- `d.get(k)` with Python's `None` default mapped to JSON `null`. -/
def JSON.getFieldD (j : JSON) (k : String) : JSON :=
  (j.getField k).getD JSON.null

/-- Dictionary indexing `d[k]`: raises `KeyError` when the key is
absent, `TypeError` when the value is not a dictionary. -/
def JSON.index (j : JSON) (k : String) : Except Err JSON :=
  match j with
  | .obj fs =>
    match List.lookup k fs with
    | some v => .ok v
    | none => .error (.keyError k)
  | _ => .error .typeError

/-- `True` exactly when the payload's "status" field is the string
"failure" (Python `result.get('status') == "failure"`). -/
def statusIsFailure (j : JSON) : Bool :=
  match j.getField "status" with
  | some (JSON.str s) => s == "failure"
  | _ => false

/-- Whether a call returned a value (rather than raising). -/
def exceptIsOk : Except Err JSON → Bool
  | .ok _ => true
  | .error _ => false

/-- Whether a call raised the library's `ValidationError`. -/
def isValidationError : Except Err JSON → Bool
  | .error (.validationError _) => true
  | _ => false

/-- `True` when `s` contains `pat` as a substring (`pat` nonempty). -/
def strContains (s pat : String) : Bool :=
  (s.splitOn pat).length ≥ 2

/-- Modelled from the spec: `__validation.isSongUrl`, a pure predicate
matching the host and song path marker of the service's public song
page URLs (spec section 4.3). -/
def isSongUrl (url : String) : Bool :=
  strContains url "jiosaavn.com" && strContains url "/song/"

/-- Modelled from the spec: `__validation.isAlbumUrl`, a pure predicate
matching the host and album path marker (spec section 4.3). -/
def isAlbumUrl (url : String) : Bool :=
  strContains url "jiosaavn.com" && strContains url "/album/"

/-- Modelled from the spec: `__validation.isPlaylistUrl`, a pure
predicate matching the host and playlist path marker (spec
section 4.3). -/
def isPlaylistUrl (url : String) : Bool :=
  strContains url "jiosaavn.com" && strContains url "/playlist/"

/-- Extract the text between the first occurrence of `pre` and the
following occurrence of `post`; fail with an extraction error when the
pattern is absent.  Support for the modelled id extractors of spec
section 4.4. -/
def extractBetween (pre post text : String) : Except Err String :=
  match text.splitOn pre with
  | _ :: rest :: _ =>
    match rest.splitOn post with
    | tok :: _ :: _ => .ok tok
    | _ => .error .extractionError
  | _ => .error .extractionError

/-- Modelled from the spec: `__helper.getSongId` extracts the song id
embedded in a fetched song page via a fixed attribute pattern, raising
when the pattern is absent (spec section 4.4). -/
def getSongId (response : String) : Except Err String :=
  extractBetween "data-song-id=\"" "\"" response

/-- Modelled from the spec: `__helper.getAlbumId`, the album page
counterpart of `getSongId` (spec section 4.4). -/
def getAlbumId (response : String) : Except Err String :=
  extractBetween "data-album-id=\"" "\"" response

/-- Modelled from the spec: `__helper.getPlaylistId`, the playlist page
counterpart of `getSongId` (spec section 4.4). -/
def getPlaylistId (response : String) : Except Err String :=
  extractBetween "data-playlist-id=\"" "\"" response

/-- Modelled from the spec: `__baseApiUrl.songsearchFromSTRING`, the
pure URL builder for the song search operation (spec section 4.1). -/
def songsearchFromSTRING (query : String) (p n : Int) : String :=
  "https://www.jiosaavn.com/api.php?__call=search.getResults&q="
    ++ query ++ "&p=" ++ toString p ++ "&n=" ++ toString n

/-- Modelled from the spec: `__baseApiUrl.albumsearchFromSTRING`, the
pure URL builder for the album search operation (spec section 4.1). -/
def albumsearchFromSTRING (query : String) : String :=
  "https://www.jiosaavn.com/api.php?__call=search.getAlbumResults&q=" ++ query

/-- Modelled from the spec: `__baseApiUrl.songFromID`, the pure URL
builder for the song-by-id operation (spec section 4.1). -/
def songFromID (id : String) : String :=
  "https://www.jiosaavn.com/api.php?__call=song.getDetails&pids=" ++ id

/-- Modelled from the spec: `__baseApiUrl.albumFromID`, the pure URL
builder for the album-by-id operation (spec section 4.1). -/
def albumFromID (id : String) : String :=
  "https://www.jiosaavn.com/api.php?__call=content.getAlbumDetails&albumid=" ++ id

/-- Modelled from the spec: `__baseApiUrl.playlistFromID`, the pure URL
builder for the playlist-by-id operation (spec section 4.1). -/
def playlistFromID (id : String) : String :=
  "https://www.jiosaavn.com/api.php?__call=playlist.getDetails&listid=" ++ id

/-- Modelled from the spec: `__baseApiUrl.lyricsFromID`, the pure URL
builder for the lyrics-by-id operation (spec section 4.1). -/
def lyricsFromID (id : String) : String :=
  "https://www.jiosaavn.com/api.php?__call=lyrics.getLyrics&lyrics_id=" ++ id

/-- Modelled from the spec: `__syncparse.makeSearchResponse`, the song
search normalizer producing a reduced dictionary with a stable key set
(spec section 4.5). -/
def makeSearchResponse (data : JSON) : JSON :=
  JSON.obj [("total", data.getFieldD "total"), ("results", data.getFieldD "results")]

/-- Modelled from the spec: `__syncparse.makeAlbumSearchResponse`, the
album search normalizer (spec section 4.5). -/
def makeAlbumSearchResponse (data : JSON) : JSON :=
  JSON.obj [("albums", data.getFieldD "albums")]

/-- Modelled from the spec: `__syncparse.makeSongResponse`, the song
normalizer: copies a stable set of fields from the raw song entry and,
when `lyricsFlag` is set, performs an additional lyrics fetch and
merges the result (spec section 4.5).  Returns the normalized value
together with the extra requests issued. -/
def makeSongResponse (song : JSON) (lyricsFlag : Bool) (b : Backend) :
    Except Err JSON × List Req :=
  let sid := match song.getField "id" with
    | some (JSON.str v) => v
    | _ => ""
  let base := [("id", song.getFieldD "id"), ("title", song.getFieldD "song"),
    ("image", song.getFieldD "image"), ("duration", song.getFieldD "duration")]
  if lyricsFlag then
    match b.getjSON (lyricsFromID sid) with
    | .error e => (.error e, [Req.apiGet (lyricsFromID sid)])
    | .ok lj =>
      (.ok (JSON.obj (base ++ [("lyrics", lj.getFieldD "lyrics")])),
        [Req.apiGet (lyricsFromID sid)])
  else
    (.ok (JSON.obj base), [])

/-- Modelled from the spec: `__syncparse.makeAlbumResponse`, the album
normalizer over the whole raw payload (spec section 4.5). -/
def makeAlbumResponse (data : JSON) (lyricsFlag : Bool) (b : Backend) :
    Except Err JSON × List Req :=
  let base := [("id", data.getFieldD "albumid"), ("title", data.getFieldD "title"),
    ("image", data.getFieldD "image"), ("year", data.getFieldD "year")]
  if lyricsFlag then
    let sid := match data.getField "songid" with
      | some (JSON.str v) => v
      | _ => ""
    match b.getjSON (lyricsFromID sid) with
    | .error e => (.error e, [Req.apiGet (lyricsFromID sid)])
    | .ok lj =>
      (.ok (JSON.obj (base ++ [("lyrics", lj.getFieldD "lyrics")])),
        [Req.apiGet (lyricsFromID sid)])
  else
    (.ok (JSON.obj base), [])

/-- Modelled from the spec: `__syncparse.makePlaylistResponse`, the
playlist normalizer over the whole raw payload (spec section 4.5). -/
def makePlaylistResponse (data : JSON) (lyricsFlag : Bool) (b : Backend) :
    Except Err JSON × List Req :=
  let base := [("id", data.getFieldD "listid"), ("title", data.getFieldD "listname"),
    ("image", data.getFieldD "image")]
  if lyricsFlag then
    let sid := match data.getField "songid" with
      | some (JSON.str v) => v
      | _ => ""
    match b.getjSON (lyricsFromID sid) with
    | .error e => (.error e, [Req.apiGet (lyricsFromID sid)])
    | .ok lj =>
      (.ok (JSON.obj (base ++ [("lyrics", lj.getFieldD "lyrics")])),
        [Req.apiGet (lyricsFromID sid)])
  else
    (.ok (JSON.obj base), [])

/-- Tail of `song` after the id is resolved (`_syncFetch.py` lines
92-96): the `assert response in Response` check, the JSON API fetch,
and the raw/json branch where json mode normalizes `result[id]`.
`t` is the trace of requests already issued while resolving the id. -/
def songFetch (sid : String) (lyricsFlag : Bool) (response : String)
    (b : Backend) (t : List Req) : Except Err JSON × List Req :=
  if Response.contains response then
    match b.getjSON (songFromID sid) with
    | .error e => (.error e, t ++ [Req.apiGet (songFromID sid)])
    | .ok result =>
      if response == "raw" then
        (.ok result, t ++ [Req.apiGet (songFromID sid)])
      else
        match result.index sid with
        | .error e => (.error e, t ++ [Req.apiGet (songFromID sid)])
        | .ok entry =>
          match makeSongResponse entry lyricsFlag b with
          | (r, t2) => (r, t ++ [Req.apiGet (songFromID sid)] ++ t2)
  else
    (.error (.assertionError "response should be json or raw"), t)

/-- `song` (`_syncFetch.py` lines 67-96): presence check on `url`/`id`,
then URL-shape check, page fetch and id extraction when a `url` is
given, then `songFetch`. -/
def song (url id : Option String) (lyricsFlag : Bool) (response : String)
    (b : Backend) : Except Err JSON × List Req :=
  if truthyOpt url || truthyOpt id then
    if truthyOpt url then
      if isSongUrl (optStr url) then
        match b.getText (optStr url) [("bitrate", "320")] with
        | .error e => (.error e, [Req.pageGet (optStr url) [("bitrate", "320")]])
        | .ok text =>
          match getSongId text with
          | .error e => (.error e, [Req.pageGet (optStr url) [("bitrate", "320")]])
          | .ok sid =>
            songFetch sid lyricsFlag response b
              [Req.pageGet (optStr url) [("bitrate", "320")]]
      else
        (.error (.invalidURL "Please provide a valid jiosaavn song url"), [])
    else
      songFetch (optStr id) lyricsFlag response b []
  else
    (.error (.validationError "Please provide a url or id of a song"), [])

/-- Tail of `album` after the id is resolved (`_syncFetch.py` lines
124-128): response-mode assertion, API fetch, raw/json branch (json
mode normalizes the whole payload). -/
def albumFetch (aid : String) (lyricsFlag : Bool) (response : String)
    (b : Backend) (t : List Req) : Except Err JSON × List Req :=
  if Response.contains response then
    match b.getjSON (albumFromID aid) with
    | .error e => (.error e, t ++ [Req.apiGet (albumFromID aid)])
    | .ok result =>
      if response == "raw" then
        (.ok result, t ++ [Req.apiGet (albumFromID aid)])
      else
        match makeAlbumResponse result lyricsFlag b with
        | (r, t2) => (r, t ++ [Req.apiGet (albumFromID aid)] ++ t2)
  else
    (.error (.assertionError "response should be json or raw"), t)

/-- `album` (`_syncFetch.py` lines 99-128). -/
def album (url id : Option String) (lyricsFlag : Bool) (response : String)
    (b : Backend) : Except Err JSON × List Req :=
  if truthyOpt url || truthyOpt id then
    if truthyOpt url then
      if isAlbumUrl (optStr url) then
        match b.getText (optStr url) [] with
        | .error e => (.error e, [Req.pageGet (optStr url) []])
        | .ok text =>
          match getAlbumId text with
          | .error e => (.error e, [Req.pageGet (optStr url) []])
          | .ok aid =>
            albumFetch aid lyricsFlag response b [Req.pageGet (optStr url) []]
      else
        (.error (.invalidURL "Please provide a valid jiosaavn album url"), [])
    else
      albumFetch (optStr id) lyricsFlag response b []
  else
    (.error (.validationError "Please provide a url or id of an album"), [])

/-- Tail of `playlist` after the id is resolved (`_syncFetch.py` lines
156-160). -/
def playlistFetch (pid : String) (lyricsFlag : Bool) (response : String)
    (b : Backend) (t : List Req) : Except Err JSON × List Req :=
  if Response.contains response then
    match b.getjSON (playlistFromID pid) with
    | .error e => (.error e, t ++ [Req.apiGet (playlistFromID pid)])
    | .ok result =>
      if response == "raw" then
        (.ok result, t ++ [Req.apiGet (playlistFromID pid)])
      else
        match makePlaylistResponse result lyricsFlag b with
        | (r, t2) => (r, t ++ [Req.apiGet (playlistFromID pid)] ++ t2)
  else
    (.error (.assertionError "response should be json or raw"), t)

/-- `playlist` (`_syncFetch.py` lines 131-160). -/
def playlist (url id : Option String) (lyricsFlag : Bool) (response : String)
    (b : Backend) : Except Err JSON × List Req :=
  if truthyOpt url || truthyOpt id then
    if truthyOpt url then
      if isPlaylistUrl (optStr url) then
        match b.getText (optStr url) [] with
        | .error e => (.error e, [Req.pageGet (optStr url) []])
        | .ok text =>
          match getPlaylistId text with
          | .error e => (.error e, [Req.pageGet (optStr url) []])
          | .ok pid =>
            playlistFetch pid lyricsFlag response b [Req.pageGet (optStr url) []]
      else
        (.error (.invalidURL "Please provide a valid jiosaavn playlist url"), [])
    else
      playlistFetch (optStr id) lyricsFlag response b []
  else
    (.error (.validationError "Please provide a url or id of playlist"), [])

/-- Tail of `lyrics` after the id is resolved (`_syncFetch.py` lines
187-196): response-mode assertion, API fetch, raw passthrough, then the
soft-failure collapse of a "failure" status into the "no lyric"
dictionary, else the three-field normalized dictionary. -/
def lyricsFetch (sid : String) (response : String) (b : Backend)
    (t : List Req) : Except Err JSON × List Req :=
  if Response.contains response then
    match b.getjSON (lyricsFromID sid) with
    | .error e => (.error e, t ++ [Req.apiGet (lyricsFromID sid)])
    | .ok result =>
      if response == "raw" then
        (.ok result, t ++ [Req.apiGet (lyricsFromID sid)])
      else if statusIsFailure result then
        (.ok (JSON.obj [("status", JSON.str "no lyric")]),
          t ++ [Req.apiGet (lyricsFromID sid)])
      else
        (.ok (JSON.obj [("lyrics", result.getFieldD "lyrics"),
          ("lyrics_copyright", result.getFieldD "lyrics_copyright"),
          ("snippet", result.getFieldD "snippet")]),
          t ++ [Req.apiGet (lyricsFromID sid)])
  else
    (.error (.assertionError "response should be json or raw"), t)

/-- `lyrics` (`_syncFetch.py` lines 163-196). -/
def lyrics (url id : Option String) (response : String) (b : Backend) :
    Except Err JSON × List Req :=
  if truthyOpt url || truthyOpt id then
    if truthyOpt url then
      if isSongUrl (optStr url) then
        match b.getText (optStr url) [("bitrate", "320")] with
        | .error e => (.error e, [Req.pageGet (optStr url) [("bitrate", "320")]])
        | .ok text =>
          match getSongId text with
          | .error e => (.error e, [Req.pageGet (optStr url) [("bitrate", "320")]])
          | .ok sid =>
            lyricsFetch sid response b
              [Req.pageGet (optStr url) [("bitrate", "320")]]
      else
        (.error (.invalidURL "Please provide a valid jiosaavn song url"), [])
    else
      lyricsFetch (optStr id) response b []
  else
    (.error (.validationError "Please provide a url or id of a song"), [])

/-- `searchSong` (`_syncFetch.py` lines 16-40): the
`@validate_arguments` decorator enforces `page > 0` and
`0 < limit < 30` before the body runs (a pydantic validation error on
violation), then the body asserts the response mode, fetches and
branches on raw/json. -/
def searchSong (query : String) (page limit : Int) (response : String)
    (b : Backend) : Except Err JSON × List Req :=
  if 0 < page ∧ 0 < limit ∧ limit < 30 then
    if Response.contains response then
      match b.getjSON (songsearchFromSTRING query page limit) with
      | .error e => (.error e, [Req.apiGet (songsearchFromSTRING query page limit)])
      | .ok result =>
        if response == "raw" then
          (.ok result, [Req.apiGet (songsearchFromSTRING query page limit)])
        else
          (.ok (makeSearchResponse result),
            [Req.apiGet (songsearchFromSTRING query page limit)])
    else
      (.error (.assertionError "response should be json or raw"), [])
  else
    (.error (.validationError "page must be gt 0 and limit must be gt 0 and lt 30"), [])

/-- `searchAlbum` (`_syncFetch.py` lines 43-64). -/
def searchAlbum (query : String) (response : String) (b : Backend) :
    Except Err JSON × List Req :=
  if Response.contains response then
    match b.getjSON (albumsearchFromSTRING query) with
    | .error e => (.error e, [Req.apiGet (albumsearchFromSTRING query)])
    | .ok result =>
      if response == "raw" then
        (.ok result, [Req.apiGet (albumsearchFromSTRING query)])
      else
        (.ok (makeAlbumSearchResponse result), [Req.apiGet (albumsearchFromSTRING query)])
  else
    (.error (.assertionError "response should be json or raw"), [])

/-- A concrete backend used by witnesses: every API fetch answers with
the request URL as a JSON string, every page fetch answers with a page
embedding a song id. -/
def b0 : Backend where
  getjSON := fun u => .ok (JSON.str u)
  getText := fun _ _ => .ok "<html data-song-id=\"veJXEDAz\" ...>"

/-- Backend used by witnesses: every API fetch answers with a
dictionary carrying a "failure" status together with the request URL,
every page fetch answers a page embedding ids for all three resource
types. -/
def bFail : Backend where
  getjSON := fun u => .ok (JSON.obj [("status", JSON.str "failure"), ("url", JSON.str u)])
  getText := fun _ _ =>
    .ok "<html data-song-id=\"sId1\" data-album-id=\"aId1\" data-playlist-id=\"pId1\">"

/-- C1: every public function called with `response="raw"` whose
backend fetch succeeds returns the backend's decoded JSON value
unchanged — no normalization, no key added, removed or renamed; for
`lyrics` this holds for any payload, a "failure"-status payload
included. -/
theorem raw_mode_returns_backend_json_unchanged
    (q i : String) (p n : Int) (l : Bool) (b : Backend)
    (j1 j2 j3 j4 j5 j6 : JSON)
    (hp : 0 < p) (hn1 : 0 < n) (hn2 : n < 30) (hi : i ≠ "")
    (h1 : b.getjSON (songsearchFromSTRING q p n) = .ok j1)
    (h2 : b.getjSON (albumsearchFromSTRING q) = .ok j2)
    (h3 : b.getjSON (songFromID i) = .ok j3)
    (h4 : b.getjSON (albumFromID i) = .ok j4)
    (h5 : b.getjSON (playlistFromID i) = .ok j5)
    (h6 : b.getjSON (lyricsFromID i) = .ok j6) :
    (searchSong q p n "raw" b).fst = .ok j1 ∧
    (searchAlbum q "raw" b).fst = .ok j2 ∧
    (song none (some i) l "raw" b).fst = .ok j3 ∧
    (album none (some i) l "raw" b).fst = .ok j4 ∧
    (playlist none (some i) l "raw" b).fst = .ok j5 ∧
    (lyrics none (some i) "raw" b).fst = .ok j6 := by
  simp [searchSong, searchAlbum, song, album, playlist, lyrics,
    songFetch, albumFetch, playlistFetch, lyricsFetch, truthyOpt, optStr,
    Response, hp, hn1, hn2, hi, h1, h2, h3, h4, h5, h6]

/-- Witness for C1 at concrete inputs, with a backend whose lyrics
payload carries a "failure" status: raw mode still passes it through
untouched. -/
theorem raw_mode_returns_backend_json_unchanged_witness :
    (searchSong "alone" 1 10 "raw" bFail).fst
      = .ok (JSON.obj [("status", JSON.str "failure"),
          ("url", JSON.str (songsearchFromSTRING "alone" 1 10))]) ∧
    (searchAlbum "alone" "raw" bFail).fst
      = .ok (JSON.obj [("status", JSON.str "failure"),
          ("url", JSON.str (albumsearchFromSTRING "alone"))]) ∧
    (song none (some "veJXEDAz") false "raw" bFail).fst
      = .ok (JSON.obj [("status", JSON.str "failure"),
          ("url", JSON.str (songFromID "veJXEDAz"))]) ∧
    (album none (some "veJXEDAz") false "raw" bFail).fst
      = .ok (JSON.obj [("status", JSON.str "failure"),
          ("url", JSON.str (albumFromID "veJXEDAz"))]) ∧
    (playlist none (some "veJXEDAz") false "raw" bFail).fst
      = .ok (JSON.obj [("status", JSON.str "failure"),
          ("url", JSON.str (playlistFromID "veJXEDAz"))]) ∧
    (lyrics none (some "veJXEDAz") "raw" bFail).fst
      = .ok (JSON.obj [("status", JSON.str "failure"),
          ("url", JSON.str (lyricsFromID "veJXEDAz"))]) :=
  raw_mode_returns_backend_json_unchanged "alone" "veJXEDAz" 1 10 false bFail
    _ _ _ _ _ _ (by decide) (by decide) (by decide) (by decide)
    rfl rfl rfl rfl rfl rfl

/-- With a response mode outside `Response`, the tail of `song` stops
at the `assert` with Python's `AssertionError`, issuing no API fetch. -/
theorem songFetch_assertion (sid : String) (l : Bool) (r : String) (b : Backend)
    (t : List Req) (hr : Response.contains r = false) :
    songFetch sid l r b t
      = (.error (.assertionError "response should be json or raw"), t) := by
  have hr2 : r ∉ Response := by simpa using hr
  simp [songFetch, hr2]

/-- `albumFetch` counterpart of `songFetch_assertion`. -/
theorem albumFetch_assertion (aid : String) (l : Bool) (r : String) (b : Backend)
    (t : List Req) (hr : Response.contains r = false) :
    albumFetch aid l r b t
      = (.error (.assertionError "response should be json or raw"), t) := by
  have hr2 : r ∉ Response := by simpa using hr
  simp [albumFetch, hr2]

/-- `playlistFetch` counterpart of `songFetch_assertion`. -/
theorem playlistFetch_assertion (pid : String) (l : Bool) (r : String) (b : Backend)
    (t : List Req) (hr : Response.contains r = false) :
    playlistFetch pid l r b t
      = (.error (.assertionError "response should be json or raw"), t) := by
  have hr2 : r ∉ Response := by simpa using hr
  simp [playlistFetch, hr2]

/-- `lyricsFetch` counterpart of `songFetch_assertion`. -/
theorem lyricsFetch_assertion (sid : String) (r : String) (b : Backend)
    (t : List Req) (hr : Response.contains r = false) :
    lyricsFetch sid r b t
      = (.error (.assertionError "response should be json or raw"), t) := by
  have hr2 : r ∉ Response := by simpa using hr
  simp [lyricsFetch, hr2]

/-- With a bad response mode, `song` never returns a value: every
branch raises some error. -/
theorem song_not_ok (u v : Option String) (l : Bool) (r : String) (b : Backend)
    (hr : Response.contains r = false) :
    exceptIsOk (song u v l r b).fst = false := by
  unfold song
  repeat' split
  all_goals first
    | (rw [songFetch_assertion _ _ _ _ _ hr]; simp [exceptIsOk])
    | simp [exceptIsOk]

/-- With a bad response mode, `album` never returns a value. -/
theorem album_not_ok (u v : Option String) (l : Bool) (r : String) (b : Backend)
    (hr : Response.contains r = false) :
    exceptIsOk (album u v l r b).fst = false := by
  unfold album
  repeat' split
  all_goals first
    | (rw [albumFetch_assertion _ _ _ _ _ hr]; simp [exceptIsOk])
    | simp [exceptIsOk]

/-- With a bad response mode, `playlist` never returns a value. -/
theorem playlist_not_ok (u v : Option String) (l : Bool) (r : String) (b : Backend)
    (hr : Response.contains r = false) :
    exceptIsOk (playlist u v l r b).fst = false := by
  unfold playlist
  repeat' split
  all_goals first
    | (rw [playlistFetch_assertion _ _ _ _ _ hr]; simp [exceptIsOk])
    | simp [exceptIsOk]

/-- With a bad response mode, `lyrics` never returns a value. -/
theorem lyrics_not_ok (u v : Option String) (r : String) (b : Backend)
    (hr : Response.contains r = false) :
    exceptIsOk (lyrics u v r b).fst = false := by
  unfold lyrics
  repeat' split
  all_goals first
    | (rw [lyricsFetch_assertion _ _ _ _ hr]; simp [exceptIsOk])
    | simp [exceptIsOk]

/-- C2 counterexample: `searchSong` with `response="xml"` raises
Python's `AssertionError` from `assert response in Response`, not the
library's `ValidationError` class as the claim states. -/
theorem bad_response_raises_assertion_not_validation :
    isValidationError (searchSong "alone" 1 10 "xml" bFail).fst = false ∧
    (searchSong "alone" 1 10 "xml" bFail).fst
      = .error (.assertionError "response should be json or raw") := by
  constructor <;> rfl

/-- C2 amended: with `response` outside {"json","raw"} no public
function ever returns a result; when execution reaches the
response-mode check the error raised is the `assert` statement's
`AssertionError` (calls failing an earlier validation raise that
earlier check's own error instead). -/
theorem bad_response_never_returns
    (q i : String) (p n : Int) (l : Bool) (r : String)
    (u v : Option String) (b : Backend)
    (hr : Response.contains r = false) :
    exceptIsOk (searchSong q p n r b).fst = false ∧
    exceptIsOk (searchAlbum q r b).fst = false ∧
    exceptIsOk (song u v l r b).fst = false ∧
    exceptIsOk (album u v l r b).fst = false ∧
    exceptIsOk (playlist u v l r b).fst = false ∧
    exceptIsOk (lyrics u v r b).fst = false ∧
    (searchAlbum q r b).fst
      = .error (.assertionError "response should be json or raw") ∧
    (0 < p → 0 < n → n < 30 → (searchSong q p n r b).fst
      = .error (.assertionError "response should be json or raw")) ∧
    (i ≠ "" → (song none (some i) l r b).fst
      = .error (.assertionError "response should be json or raw")) ∧
    (i ≠ "" → (album none (some i) l r b).fst
      = .error (.assertionError "response should be json or raw")) ∧
    (i ≠ "" → (playlist none (some i) l r b).fst
      = .error (.assertionError "response should be json or raw")) ∧
    (i ≠ "" → (lyrics none (some i) r b).fst
      = .error (.assertionError "response should be json or raw")) := by
  have hr2 : r ∉ Response := by simpa using hr
  refine ⟨?_, ?_, song_not_ok u v l r b hr, album_not_ok u v l r b hr,
    playlist_not_ok u v l r b hr, lyrics_not_ok u v r b hr, ?_, ?_, ?_, ?_, ?_, ?_⟩
  · unfold searchSong
    repeat' split
    all_goals simp_all [exceptIsOk]
  · simp [searchAlbum, hr2, exceptIsOk]
  · simp [searchAlbum, hr2]
  · intro hp hn1 hn2
    simp [searchSong, hp, hn1, hn2, hr2]
  · intro hi
    have hs := songFetch_assertion i l r b [] hr
    simp [song, truthyOpt, optStr, hi, hs]
  · intro hi
    have hs := albumFetch_assertion i l r b [] hr
    simp [album, truthyOpt, optStr, hi, hs]
  · intro hi
    have hs := playlistFetch_assertion i l r b [] hr
    simp [playlist, truthyOpt, optStr, hi, hs]
  · intro hi
    have hs := lyricsFetch_assertion i r b [] hr
    simp [lyrics, truthyOpt, optStr, hi, hs]

/-- Witness for the amended C2 at `response="xml"`. -/
theorem bad_response_never_returns_witness :
    exceptIsOk (searchSong "alone" 1 10 "xml" bFail).fst = false ∧
    exceptIsOk (searchAlbum "alone" "xml" bFail).fst = false ∧
    exceptIsOk (song none (some "veJXEDAz") false "xml" bFail).fst = false ∧
    exceptIsOk (album none (some "veJXEDAz") false "xml" bFail).fst = false ∧
    exceptIsOk (playlist none (some "veJXEDAz") false "xml" bFail).fst = false ∧
    exceptIsOk (lyrics none (some "veJXEDAz") "xml" bFail).fst = false ∧
    (searchAlbum "alone" "xml" bFail).fst
      = .error (.assertionError "response should be json or raw") ∧
    (0 < (1 : Int) → 0 < (10 : Int) → (10 : Int) < 30 →
      (searchSong "alone" 1 10 "xml" bFail).fst
        = .error (.assertionError "response should be json or raw")) ∧
    ("veJXEDAz" ≠ "" → (song none (some "veJXEDAz") false "xml" bFail).fst
      = .error (.assertionError "response should be json or raw")) ∧
    ("veJXEDAz" ≠ "" → (album none (some "veJXEDAz") false "xml" bFail).fst
      = .error (.assertionError "response should be json or raw")) ∧
    ("veJXEDAz" ≠ "" → (playlist none (some "veJXEDAz") false "xml" bFail).fst
      = .error (.assertionError "response should be json or raw")) ∧
    ("veJXEDAz" ≠ "" → (lyrics none (some "veJXEDAz") "xml" bFail).fst
      = .error (.assertionError "response should be json or raw")) :=
  bad_response_never_returns "alone" "veJXEDAz" 1 10 false "xml"
    none (some "veJXEDAz") bFail (by decide)

/-- C3 counterexample: `song` called with no url, no id and the
invalid response mode "xml" fails with the missing-input
`ValidationError`, not the response-mode error — so the response mode
is not validated first. -/
theorem validation_order_counterexample :
    song none none false "xml" bFail
      = (.error (.validationError "Please provide a url or id of a song"), []) ∧
    (song none none false "xml" bFail).fst
      ≠ .error (.assertionError "response should be json or raw") := by
  constructor
  · rfl
  · simp [song, truthyOpt]

/-- C3 amended: for the id-resolving functions the validation order is
(1) presence of `url` or `id`, (2) the URL's shape (followed by the
page fetch and id extraction), (3) the response mode — checked after id
resolution but before the backend API fetch.  An invalid response mode
combined with a missing or ill-shaped url fails with the earlier
check's error; on the id path an invalid response mode fails with the
assertion error before any request is issued. -/
theorem validation_order_amended
    (u i : String) (v : Option String) (l : Bool) (r : String) (b : Backend)
    (hi : i ≠ "") :
    song none none l r b
      = (.error (.validationError "Please provide a url or id of a song"), []) ∧
    album none none l r b
      = (.error (.validationError "Please provide a url or id of an album"), []) ∧
    playlist none none l r b
      = (.error (.validationError "Please provide a url or id of playlist"), []) ∧
    lyrics none none r b
      = (.error (.validationError "Please provide a url or id of a song"), []) ∧
    (u ≠ "" → isSongUrl u = false → song (some u) v l r b
      = (.error (.invalidURL "Please provide a valid jiosaavn song url"), [])) ∧
    (u ≠ "" → isAlbumUrl u = false → album (some u) v l r b
      = (.error (.invalidURL "Please provide a valid jiosaavn album url"), [])) ∧
    (u ≠ "" → isPlaylistUrl u = false → playlist (some u) v l r b
      = (.error (.invalidURL "Please provide a valid jiosaavn playlist url"), [])) ∧
    (u ≠ "" → isSongUrl u = false → lyrics (some u) v r b
      = (.error (.invalidURL "Please provide a valid jiosaavn song url"), [])) ∧
    (Response.contains r = false → song none (some i) l r b
      = (.error (.assertionError "response should be json or raw"), [])) ∧
    (Response.contains r = false → album none (some i) l r b
      = (.error (.assertionError "response should be json or raw"), [])) ∧
    (Response.contains r = false → playlist none (some i) l r b
      = (.error (.assertionError "response should be json or raw"), [])) ∧
    (Response.contains r = false → lyrics none (some i) r b
      = (.error (.assertionError "response should be json or raw"), [])) := by
  refine ⟨by simp [song, truthyOpt], by simp [album, truthyOpt],
    by simp [playlist, truthyOpt], by simp [lyrics, truthyOpt],
    ?_, ?_, ?_, ?_, ?_, ?_, ?_, ?_⟩
  · intro hu hbad
    simp [song, truthyOpt, optStr, hu, hbad]
  · intro hu hbad
    simp [album, truthyOpt, optStr, hu, hbad]
  · intro hu hbad
    simp [playlist, truthyOpt, optStr, hu, hbad]
  · intro hu hbad
    simp [lyrics, truthyOpt, optStr, hu, hbad]
  · intro hr
    have hs := songFetch_assertion i l r b [] hr
    simp [song, truthyOpt, optStr, hi, hs]
  · intro hr
    have hs := albumFetch_assertion i l r b [] hr
    simp [album, truthyOpt, optStr, hi, hs]
  · intro hr
    have hs := playlistFetch_assertion i l r b [] hr
    simp [playlist, truthyOpt, optStr, hi, hs]
  · intro hr
    have hs := lyricsFetch_assertion i r b [] hr
    simp [lyrics, truthyOpt, optStr, hi, hs]

/-- Witness for the amended C3 at concrete inputs. -/
theorem validation_order_amended_witness :
    song none none false "xml" bFail
      = (.error (.validationError "Please provide a url or id of a song"), []) ∧
    album none none false "xml" bFail
      = (.error (.validationError "Please provide a url or id of an album"), []) ∧
    playlist none none false "xml" bFail
      = (.error (.validationError "Please provide a url or id of playlist"), []) ∧
    lyrics none none "xml" bFail
      = (.error (.validationError "Please provide a url or id of a song"), []) ∧
    ("https://example.com/x" ≠ "" → isSongUrl "https://example.com/x" = false →
      song (some "https://example.com/x") none false "xml" bFail
        = (.error (.invalidURL "Please provide a valid jiosaavn song url"), [])) ∧
    ("https://example.com/x" ≠ "" → isAlbumUrl "https://example.com/x" = false →
      album (some "https://example.com/x") none false "xml" bFail
        = (.error (.invalidURL "Please provide a valid jiosaavn album url"), [])) ∧
    ("https://example.com/x" ≠ "" → isPlaylistUrl "https://example.com/x" = false →
      playlist (some "https://example.com/x") none false "xml" bFail
        = (.error (.invalidURL "Please provide a valid jiosaavn playlist url"), [])) ∧
    ("https://example.com/x" ≠ "" → isSongUrl "https://example.com/x" = false →
      lyrics (some "https://example.com/x") none "xml" bFail
        = (.error (.invalidURL "Please provide a valid jiosaavn song url"), [])) ∧
    (Response.contains "xml" = false → song none (some "veJXEDAz") false "xml" bFail
      = (.error (.assertionError "response should be json or raw"), [])) ∧
    (Response.contains "xml" = false → album none (some "veJXEDAz") false "xml" bFail
      = (.error (.assertionError "response should be json or raw"), [])) ∧
    (Response.contains "xml" = false → playlist none (some "veJXEDAz") false "xml" bFail
      = (.error (.assertionError "response should be json or raw"), [])) ∧
    (Response.contains "xml" = false → lyrics none (some "veJXEDAz") "xml" bFail
      = (.error (.assertionError "response should be json or raw"), [])) :=
  validation_order_amended "https://example.com/x" "veJXEDAz" none false "xml"
    bFail (by decide)

/-- C4: `searchSong` accepts exactly `page ≥ 1` and `1 ≤ limit < 30`:
any integer pair outside those bounds fails with the pydantic
`ValidationError` before anything else runs, and any pair inside them
passes the validation — with a recognized response mode the call
proceeds to the search fetch. -/
theorem searchSong_page_limit_bounds (q : String) (p n : Int) (r : String)
    (b : Backend) :
    (¬(0 < p ∧ 0 < n ∧ n < 30) →
      searchSong q p n r b
        = (.error (.validationError "page must be gt 0 and limit must be gt 0 and lt 30"), [])) ∧
    ((0 < p ∧ 0 < n ∧ n < 30) → ∀ r2, Response.contains r2 = true →
      (searchSong q p n r2 b).snd = [Req.apiGet (songsearchFromSTRING q p n)]) := by
  constructor
  · intro h
    simp [searchSong, h]
  · intro h r2 hr2
    unfold searchSong
    rw [if_pos h, if_pos hr2]
    repeat' split
    all_goals simp_all

/-- Witness for C4: `page=0` and `limit=30` both fail with the
validation error; `page=1, limit=29` reaches the search fetch. -/
theorem searchSong_page_limit_bounds_witness :
    searchSong "alone" 0 10 "json" bFail
      = (.error (.validationError "page must be gt 0 and limit must be gt 0 and lt 30"), []) ∧
    searchSong "alone" 1 30 "json" bFail
      = (.error (.validationError "page must be gt 0 and limit must be gt 0 and lt 30"), []) ∧
    (searchSong "alone" 1 29 "json" bFail).snd
      = [Req.apiGet (songsearchFromSTRING "alone" 1 29)] :=
  ⟨(searchSong_page_limit_bounds "alone" 0 10 "json" bFail).1 (by norm_num),
   (searchSong_page_limit_bounds "alone" 1 30 "json" bFail).1 (by norm_num),
   (searchSong_page_limit_bounds "alone" 1 29 "json" bFail).2
     (by norm_num) "json" (by decide)⟩

/-- C5: each of `song`, `album`, `playlist`, `lyrics` called with both
`url` and `id` absent (Python `None` or the empty string) raises the
library's `ValidationError`, and the request trace is empty — no
network request precedes the error. -/
theorem missing_url_and_id_validation
    (u v : Option String) (l : Bool) (r : String) (b : Backend)
    (hu : truthyOpt u = false) (hv : truthyOpt v = false) :
    song u v l r b
      = (.error (.validationError "Please provide a url or id of a song"), []) ∧
    album u v l r b
      = (.error (.validationError "Please provide a url or id of an album"), []) ∧
    playlist u v l r b
      = (.error (.validationError "Please provide a url or id of playlist"), []) ∧
    lyrics u v r b
      = (.error (.validationError "Please provide a url or id of a song"), []) := by
  simp [song, album, playlist, lyrics, hu, hv]

/-- Witness for C5 with `url` the empty string and `id` `None`. -/
theorem missing_url_and_id_validation_witness :
    song (some "") none false "json" bFail
      = (.error (.validationError "Please provide a url or id of a song"), []) ∧
    album (some "") none false "json" bFail
      = (.error (.validationError "Please provide a url or id of an album"), []) ∧
    playlist (some "") none false "json" bFail
      = (.error (.validationError "Please provide a url or id of playlist"), []) ∧
    lyrics (some "") none "json" bFail
      = (.error (.validationError "Please provide a url or id of a song"), []) :=
  missing_url_and_id_validation (some "") none false "json" bFail
    (by decide) (by decide)

/-- C6: a `url` rejected by the resource's shape validator makes the
matching function raise `InvalidURL` with an empty request trace (no
fetch issued); a `url` the validator accepts leads to the page fetch
and the id extracted from the fetched page — the call continues as the
resolution tail applied to that extracted id, with the page request in
the trace. -/
theorem url_shape_validation
    (u : String) (v : Option String) (l : Bool) (r : String) (b : Backend)
    (hu : u ≠ "") :
    (isSongUrl u = false → song (some u) v l r b
      = (.error (.invalidURL "Please provide a valid jiosaavn song url"), [])) ∧
    (isAlbumUrl u = false → album (some u) v l r b
      = (.error (.invalidURL "Please provide a valid jiosaavn album url"), [])) ∧
    (isPlaylistUrl u = false → playlist (some u) v l r b
      = (.error (.invalidURL "Please provide a valid jiosaavn playlist url"), [])) ∧
    (isSongUrl u = false → lyrics (some u) v r b
      = (.error (.invalidURL "Please provide a valid jiosaavn song url"), [])) ∧
    (isSongUrl u = true → ∀ text sid,
      b.getText u [("bitrate", "320")] = .ok text → getSongId text = .ok sid →
      song (some u) v l r b
        = songFetch sid l r b [Req.pageGet u [("bitrate", "320")]]) ∧
    (isAlbumUrl u = true → ∀ text aid,
      b.getText u [] = .ok text → getAlbumId text = .ok aid →
      album (some u) v l r b
        = albumFetch aid l r b [Req.pageGet u []]) ∧
    (isPlaylistUrl u = true → ∀ text pid,
      b.getText u [] = .ok text → getPlaylistId text = .ok pid →
      playlist (some u) v l r b
        = playlistFetch pid l r b [Req.pageGet u []]) ∧
    (isSongUrl u = true → ∀ text sid,
      b.getText u [("bitrate", "320")] = .ok text → getSongId text = .ok sid →
      lyrics (some u) v r b
        = lyricsFetch sid r b [Req.pageGet u [("bitrate", "320")]]) := by
  refine ⟨?_, ?_, ?_, ?_, ?_, ?_, ?_, ?_⟩
  · intro hbad
    simp [song, truthyOpt, optStr, hu, hbad]
  · intro hbad
    simp [album, truthyOpt, optStr, hu, hbad]
  · intro hbad
    simp [playlist, truthyOpt, optStr, hu, hbad]
  · intro hbad
    simp [lyrics, truthyOpt, optStr, hu, hbad]
  · intro hok text sid htext hid
    simp [song, truthyOpt, optStr, hu, hok, htext, hid]
  · intro hok text aid htext hid
    simp [album, truthyOpt, optStr, hu, hok, htext, hid]
  · intro hok text pid htext hid
    simp [playlist, truthyOpt, optStr, hu, hok, htext, hid]
  · intro hok text sid htext hid
    simp [lyrics, truthyOpt, optStr, hu, hok, htext, hid]

/-- Witness for C6: the spec's example URL is rejected by the album
validator and `album` raises `InvalidURL` with no request issued; a
well-shaped song URL is accepted and `song` continues with the id
extracted from the fetched page. -/
theorem url_shape_validation_witness :
    (isAlbumUrl "https://example.com/not-an-album" = false →
      album (some "https://example.com/not-an-album") none false "json" bFail
        = (.error (.invalidURL "Please provide a valid jiosaavn album url"), [])) ∧
    (isSongUrl "https://www.jiosaavn.com/song/alone/x" = true → ∀ text sid,
      bFail.getText "https://www.jiosaavn.com/song/alone/x" [("bitrate", "320")]
        = .ok text → getSongId text = .ok sid →
      song (some "https://www.jiosaavn.com/song/alone/x") none false "json" bFail
        = songFetch sid false "json" bFail
            [Req.pageGet "https://www.jiosaavn.com/song/alone/x" [("bitrate", "320")]]) :=
  ⟨(url_shape_validation "https://example.com/not-an-album" none false "json"
      bFail (by decide)).2.1,
   (url_shape_validation "https://www.jiosaavn.com/song/alone/x" none false "json"
      bFail (by decide)).2.2.2.2.1⟩

/-- C7: `lyrics(id=..., response="json")` whose backend payload carries
`"status": "failure"` returns the dictionary with the single entry
"status" -> "no lyric" — a normal value, not an error, and not the raw
failure payload. -/
theorem lyrics_failure_collapses_to_no_lyric (i : String) (b : Backend) (j : JSON)
    (hi : i ≠ "") (hj : b.getjSON (lyricsFromID i) = .ok j)
    (hs : statusIsFailure j = true) :
    (lyrics none (some i) "json" b).fst
      = .ok (JSON.obj [("status", JSON.str "no lyric")]) := by
  simp [lyrics, truthyOpt, optStr, hi, lyricsFetch, Response, hj, hs]

/-- Witness for C7: `bFail` answers every API fetch with a
failure-status payload. -/
theorem lyrics_failure_collapses_to_no_lyric_witness :
    (lyrics none (some "veJXEDAz") "json" bFail).fst
      = .ok (JSON.obj [("status", JSON.str "no lyric")]) :=
  lyrics_failure_collapses_to_no_lyric "veJXEDAz" bFail
    (JSON.obj [("status", JSON.str "failure"),
      ("url", JSON.str (lyricsFromID "veJXEDAz"))])
    (by decide) rfl (by decide)

/-- C8: every public function is deterministic in its arguments and the
backend's responses: two backends answering every API and page fetch
identically yield identical results (value and request trace) for
identical arguments. -/
theorem deterministic_in_args_and_backend
    (q : String) (p n : Int) (u v : Option String) (l : Bool) (r : String)
    (b1 b2 : Backend)
    (hj : ∀ x, b1.getjSON x = b2.getjSON x)
    (ht : ∀ x d, b1.getText x d = b2.getText x d) :
    searchSong q p n r b1 = searchSong q p n r b2 ∧
    searchAlbum q r b1 = searchAlbum q r b2 ∧
    song u v l r b1 = song u v l r b2 ∧
    album u v l r b1 = album u v l r b2 ∧
    playlist u v l r b1 = playlist u v l r b2 ∧
    lyrics u v r b1 = lyrics u v r b2 := by
  have hb : b1 = b2 := by
    cases b1
    cases b2
    simp only [Backend.mk.injEq]
    exact ⟨funext hj, funext fun x => funext fun d => ht x d⟩
  subst hb
  exact ⟨rfl, rfl, rfl, rfl, rfl, rfl⟩

/-- Witness for C8 at concrete arguments against `bFail` twice. -/
theorem deterministic_in_args_and_backend_witness :
    searchSong "alone" 1 10 "json" bFail = searchSong "alone" 1 10 "json" bFail ∧
    searchAlbum "alone" "json" bFail = searchAlbum "alone" "json" bFail ∧
    song none (some "veJXEDAz") false "json" bFail
      = song none (some "veJXEDAz") false "json" bFail ∧
    album none (some "veJXEDAz") false "json" bFail
      = album none (some "veJXEDAz") false "json" bFail ∧
    playlist none (some "veJXEDAz") false "json" bFail
      = playlist none (some "veJXEDAz") false "json" bFail ∧
    lyrics none (some "veJXEDAz") "json" bFail
      = lyrics none (some "veJXEDAz") "json" bFail :=
  deterministic_in_args_and_backend "alone" 1 10 none (some "veJXEDAz")
    false "json" bFail bFail (fun _ => rfl) (fun _ _ => rfl)

/-- C9: when both `url` and `id` are supplied and the `url` is truthy,
the url takes precedence — the caller's `id` is discarded and the
result is identical to the call with the url alone. -/
theorem url_takes_precedence_over_id
    (u : String) (v : Option String) (l : Bool) (r : String) (b : Backend)
    (hu : u ≠ "") :
    song (some u) v l r b = song (some u) none l r b ∧
    album (some u) v l r b = album (some u) none l r b ∧
    playlist (some u) v l r b = playlist (some u) none l r b ∧
    lyrics (some u) v r b = lyrics (some u) none r b := by
  simp [song, album, playlist, lyrics, truthyOpt, hu]

/-- Witness for C9 at a concrete url/id pair. -/
theorem url_takes_precedence_over_id_witness :
    song (some "https://www.jiosaavn.com/song/alone/x") (some "otherId")
        false "json" bFail
      = song (some "https://www.jiosaavn.com/song/alone/x") none
          false "json" bFail ∧
    album (some "https://www.jiosaavn.com/song/alone/x") (some "otherId")
        false "json" bFail
      = album (some "https://www.jiosaavn.com/song/alone/x") none
          false "json" bFail ∧
    playlist (some "https://www.jiosaavn.com/song/alone/x") (some "otherId")
        false "json" bFail
      = playlist (some "https://www.jiosaavn.com/song/alone/x") none
          false "json" bFail ∧
    lyrics (some "https://www.jiosaavn.com/song/alone/x") (some "otherId")
        "json" bFail
      = lyrics (some "https://www.jiosaavn.com/song/alone/x") none
          "json" bFail :=
  url_takes_precedence_over_id "https://www.jiosaavn.com/song/alone/x"
    (some "otherId") false "json" bFail (by decide)

/-- Backend answering the song-by-id fetch with a payload keyed by the
song id, as the real backend does. -/
def bSong : Backend where
  getjSON := fun _ =>
    .ok (JSON.obj [("veJXEDAz",
      JSON.obj [("id", JSON.str "veJXEDAz"), ("song", JSON.str "Alone")])])
  getText := fun _ _ =>
    .ok "<html data-song-id=\"veJXEDAz\">"

/-- C10: in json mode `song` normalizes `result[id]`, the entry of the
backend payload keyed by the resolved id, not the whole payload; when
that key is missing the call raises the lookup error (`KeyError`)
instead of returning a result. -/
theorem song_json_indexes_result_by_id (i : String) (l : Bool) (b : Backend)
    (j : JSON) (hi : i ≠ "") (hj : b.getjSON (songFromID i) = .ok j) :
    (∀ entry, j.index i = .ok entry →
      (song none (some i) l "json" b).fst = (makeSongResponse entry l b).fst) ∧
    (j.index i = .error (.keyError i) →
      (song none (some i) l "json" b).fst = .error (.keyError i)) := by
  constructor
  · intro entry he
    simp [song, truthyOpt, optStr, hi, songFetch, Response, hj, he]
  · intro he
    simp [song, truthyOpt, optStr, hi, songFetch, Response, hj, he]

/-- Witness for C10: `bSong`'s payload carries the id key, so json mode
returns the normalized entry; `bFail`'s payload lacks it, so the call
raises `KeyError`. -/
theorem song_json_indexes_result_by_id_witness :
    (song none (some "veJXEDAz") false "json" bSong).fst
      = (makeSongResponse
          (JSON.obj [("id", JSON.str "veJXEDAz"), ("song", JSON.str "Alone")])
          false bSong).fst ∧
    (song none (some "veJXEDAz") false "json" bFail).fst
      = .error (.keyError "veJXEDAz") :=
  ⟨(song_json_indexes_result_by_id "veJXEDAz" false bSong
      (JSON.obj [("veJXEDAz",
        JSON.obj [("id", JSON.str "veJXEDAz"), ("song", JSON.str "Alone")])])
      (by decide) rfl).1
      (JSON.obj [("id", JSON.str "veJXEDAz"), ("song", JSON.str "Alone")]) rfl,
   (song_json_indexes_result_by_id "veJXEDAz" false bFail
      (JSON.obj [("status", JSON.str "failure"),
        ("url", JSON.str (songFromID "veJXEDAz"))])
      (by decide) rfl).2 rfl⟩

end JioSaavn
